import Mathlib

/-!
# AmbientSecureESP32: record store, JSON payload and request adapters

A shallow embedding of `src/AmbientSecureESP32.h` and `src/AmbientSecureESP32.cpp`.

* C strings are lists of characters.  A `const char *` argument is the list of
  characters that precede its terminator; a `char[N]` member is a list of `N`
  characters that may or may not hold a terminator.
* The object is an explicit state record; every member function takes the state
  and returns the new state next to its return value.
* The platform HTTPS client and the JSON library are external collaborators.
  The client is a record of what it answers to the single request of a call; the
  JSON document is a bounded ordered member list.
-/

set_option autoImplicit false
set_option linter.unusedVariables false

namespace AmbientSecureESP32

/-! ## Constants of the header -/

def AMBIENT_SECURE_DATA_SIZE : Nat := 24

def AMBIENT_SECURE_NUM_PARAMS : Nat := 11

def AMBIENT_SECURE_CMNT_SIZE : Nat := 64

def AMBIENT_SECURE_TIMEOUT : Nat := 30000

def HTTP_CODE_OK : Int := 200

/-- The key names of the eleven data slots, `ambient_keys` in the source. -/
def ambient_keys : List String :=
  ["d1", "d2", "d3", "d4", "d5", "d6", "d7", "d8", "lat", "lng", "created"]

/-! ## C strings -/

/-- The string terminator. -/
def NUL : Char := Char.ofNat 0

/-- The text of a `const char *` argument: what precedes the first terminator. -/
def cstr (p : List Char) : List Char := p.takeWhile (fun c => c != NUL)

/-- `strlen` of a `const char *` argument. -/
def strlen (p : List Char) : Nat := (cstr p).length

/-- `strnlen(p, maxlen)`: the length of the text, capped at `maxlen`. -/
def strnlen (p : List Char) (maxlen : Nat) : Nat := min (strlen p) maxlen

/-- `strncpy(dst, src, n)`: the first `n` characters of the text of `src` go to the
front of `dst`; when the text is shorter than `n` the rest of the `n` bytes is filled
with terminators; bytes of `dst` past `n` stay. -/
def strncpy (dst src : List Char) (n : Nat) : List Char :=
  let t := (cstr src).take n
  t ++ List.replicate (n - t.length) NUL ++ dst.drop n

/-- Reading a `char[N]` member as a C string: the text up to the first terminator
inside the member; `none` when the member holds no terminator, where the read
runs past the end of the array. -/
def readItem (item : List Char) : Option (List Char) :=
  if NUL ∈ item then some (cstr item) else none

/-! ## The record -/

/-- One data slot, `AmbientSecureData`. -/
structure AmbientSecureData where
  set : Bool
  item : List Char
  deriving DecidableEq, Repr

/-- The comment slot, `AmbientSecureCmnt`. -/
structure AmbientSecureCmnt where
  set : Bool
  item : List Char
  deriving DecidableEq, Repr

/-- The object state, `class AmbientSecure`. -/
structure AmbientSecure where
  status : Int
  CAcert : List Char
  channelId : Nat
  writeKey : List Char
  readKey : List Char
  data : List AmbientSecureData
  cmnt : AmbientSecureCmnt
  deriving DecidableEq, Repr

/-- The error lines the record operations log before they return `false`. -/
inductive LogE where
  | outOfBound (field : Nat)
  | tooLongData (field : Nat)
  | tooLongComment
  deriving DecidableEq, Repr

/-- What a record operation leaves behind: its return value, the error line it
logged if any, and the object state. -/
structure Ret where
  ret : Bool
  loge : Option LogE
  self : AmbientSecure
  deriving DecidableEq, Repr

/-- Writing member `i` of the `data` array. -/
def modifyData (data : List AmbientSecureData) (i : Nat)
    (f : AmbientSecureData → AmbientSecureData) : List AmbientSecureData :=
  match data.get? i with
  | some d => data.set i (f d)
  | none => data

/-- `AmbientSecure::set(uint8_t field, const char *data)`.  The index is a natural
number; the values of `uint8_t` are those below 256. -/
def AmbientSecure.set (self : AmbientSecure) (field : Nat) (data : List Char) : Ret :=
  if field < 1 ∨ AMBIENT_SECURE_NUM_PARAMS < field then
    { ret := false, loge := some (.outOfBound field), self := self }
  else if strnlen data (AMBIENT_SECURE_DATA_SIZE + 1) > AMBIENT_SECURE_DATA_SIZE then
    { ret := false, loge := some (.tooLongData field), self := self }
  else
    let field_num := field - 1
    let self1 := { self with
      data := (modifyData self.data field_num (fun d => { d with set := true })) }
    let self2 := { self1 with
      data := (modifyData self1.data field_num
                (fun d => { d with item := strncpy d.item data AMBIENT_SECURE_DATA_SIZE })) }
    { ret := true, loge := none, self := self2 }

/-- `AmbientSecure::setcmnt(const char *cmnt)`. -/
def AmbientSecure.setcmnt (self : AmbientSecure) (cmnt : List Char) : Ret :=
  if strnlen cmnt (AMBIENT_SECURE_CMNT_SIZE + 1) > AMBIENT_SECURE_DATA_SIZE then
    { ret := false, loge := some .tooLongComment, self := self }
  else
    let self1 := { self with cmnt := { self.cmnt with set := true } }
    let self2 := { self1 with
      cmnt := { self1.cmnt with item := strncpy self1.cmnt.item cmnt AMBIENT_SECURE_CMNT_SIZE } }
    { ret := true, loge := none, self := self2 }

/-- `AmbientSecure::clear(uint8_t field)`. -/
def AmbientSecure.clear (self : AmbientSecure) (field : Nat) : Ret :=
  if field < 1 ∨ AMBIENT_SECURE_NUM_PARAMS < field then
    { ret := false, loge := some (.outOfBound field), self := self }
  else
    let field_num := field - 1
    let self1 := { self with
      data := (modifyData self.data field_num (fun d => { d with set := false })) }
    let self2 := { self1 with cmnt := { self1.cmnt with set := false } }
    { ret := true, loge := none, self := self2 }

/-- `AmbientSecure::clear_all()`: the loop over all members of `data`, then the
comment flag. -/
def AmbientSecure.clear_all (self : AmbientSecure) : Ret :=
  let self1 := { self with data := self.data.map (fun (d : AmbientSecureData) => { d with set := false }) }
  let self2 := { self1 with cmnt := { self1.cmnt with set := false } }
  { ret := true, loge := none, self := self2 }

/-- `AmbientSecure::begin(channelId, writeKey, readKey, CAcert)`; a null key
pointer is `none`. -/
def AmbientSecure.begin (self : AmbientSecure) (channelId : Nat)
    (writeKey : Option (List Char)) (readKey : Option (List Char))
    (CAcert : List Char) : Ret :=
  let self1 := { self with channelId := channelId }
  let self2 := match writeKey with
    | some k => { self1 with writeKey := cstr k }
    | none => self1
  let self3 := match readKey with
    | some k => { self2 with readKey := cstr k }
    | none => self2
  let self4 := { self3 with CAcert := CAcert }
  let cleared := AmbientSecure.clear_all self4
  { ret := true, loge := none, self := cleared.self }

/-! ## The JSON document

`StaticJsonDocument<N>` of the ArduinoJson library is not part of the repository.
It is modelled by what the library documents: a pool of `N` bytes, one slot of
`sizeofVariantSlot` bytes per object member, key literals stored by address, and
`String` and `char[]` values copied into the pool with their terminator. -/

/-- The size of one member slot of the document pool on the 32-bit target. -/
def sizeofVariantSlot : Nat := 16

/-- The value of a document member: a copied string, or null. -/
inductive JsonVariant where
  | null
  | str (s : List Char)
  deriving DecidableEq, Repr

/-- The document: pool capacity, pool bytes in use, members in insertion order. -/
structure StaticJsonDocument where
  capacity : Nat
  usage : Nat
  members : List (String × JsonVariant)
  deriving DecidableEq, Repr

/-- A fresh `StaticJsonDocument<capacity>`. -/
def StaticJsonDocument.new (capacity : Nat) : StaticJsonDocument :=
  { capacity := capacity, usage := 0, members := [] }

/-- Copying a string value into the pool: the value stored and the new usage; a
full pool stores null. -/
def StaticJsonDocument.saveString (doc : StaticJsonDocument) (value : List Char) :
    JsonVariant × Nat :=
  if doc.usage + (value.length + 1) ≤ doc.capacity then
    (.str value, doc.usage + (value.length + 1))
  else
    (.null, doc.usage)

/-- The assignment `doc[key] = value` with a key literal and a copied string value.
An existing member gets the new value; otherwise a slot is taken at the end of the
object, and when the pool has no room for the slot the assignment is dropped. -/
def StaticJsonDocument.assign (doc : StaticJsonDocument) (key : String)
    (value : List Char) : StaticJsonDocument :=
  if doc.members.any (fun m => m.1 == key) then
    let (v, u) := doc.saveString value
    { doc with usage := u,
               members := (doc.members.map (fun m => if m.1 == key then (m.1, v) else m)) }
  else if doc.usage + sizeofVariantSlot ≤ doc.capacity then
    let doc1 := { doc with usage := doc.usage + sizeofVariantSlot }
    let (v, u) := doc1.saveString value
    { doc1 with usage := u, members := (doc1.members ++ [(key, v)]) }
  else
    doc

/-- The escape letter the serializer writes after a backslash for a character, if
the character is escaped: quote, backslash, and the control characters b f n r t. -/
def escapeChar (c : Char) : Option Char :=
  if c = Char.ofNat 34 then some (Char.ofNat 34)
  else if c = Char.ofNat 92 then some (Char.ofNat 92)
  else if c = Char.ofNat 8 then some 'b'
  else if c = Char.ofNat 12 then some 'f'
  else if c = Char.ofNat 10 then some 'n'
  else if c = Char.ofNat 13 then some 'r'
  else if c = Char.ofNat 9 then some 't'
  else none

/-- A quoted JSON string. -/
def writeString (s : List Char) : List Char :=
  [Char.ofNat 34] ++
    s.flatMap (fun c => match escapeChar c with
      | some e => [Char.ofNat 92, e]
      | none => [c]) ++
    [Char.ofNat 34]

/-- A JSON value. -/
def writeVariant : JsonVariant → List Char
  | .null => ['n', 'u', 'l', 'l']
  | .str s => writeString s

/-- One `"key":value` pair. -/
def writeMember (m : String × JsonVariant) : List Char :=
  writeString m.1.toList ++ [':'] ++ writeVariant m.2

/-- The compact text of an object with the given members. -/
def writeObject (members : List (String × JsonVariant)) : List Char :=
  [Char.ofNat 123] ++ List.intercalate [','] (members.map writeMember) ++ [Char.ofNat 125]

/-- `serializeJson(doc, buf, output_size)`: the characters written to `buf`; the
writer stops at the end of the buffer.  The return value of the call is the length
of this list. -/
def serializeJson (doc : StaticJsonDocument) (output_size : Nat) : List Char :=
  (writeObject doc.members).take output_size

/-- The loop of `get_data_as_json` from index `i` on, for `n` more rounds. -/
def dataLoop (self : AmbientSecure) : Nat → Nat → StaticJsonDocument → Option StaticJsonDocument
  | 0, _, doc => some doc
  | n + 1, i, doc =>
    match self.data.get? i, ambient_keys.get? i with
    | some d, some key =>
      if d.set then
        match readItem d.item with
        | some text => dataLoop self n (i + 1) (doc.assign key text)
        | none => none
      else dataLoop self n (i + 1) doc
    | _, _ => none

/-- The document `get_data_as_json` builds before it serializes it; `none` when a
slot that is read holds no terminator. -/
def AmbientSecure.jsonDocument (self : AmbientSecure) : Option StaticJsonDocument :=
  let doc := (StaticJsonDocument.new 192).assign "writeKey" self.writeKey
  match dataLoop self AMBIENT_SECURE_NUM_PARAMS 0 doc with
  | some doc1 =>
    if self.cmnt.set then
      match readItem self.cmnt.item with
      | some text => some (doc1.assign "cmnt" text)
      | none => none
    else some doc1
  | none => none

/-- `AmbientSecure::get_data_as_json(char *buf, size_t output_size)`: the characters
written to `buf`. -/
def AmbientSecure.get_data_as_json (self : AmbientSecure) (output_size : Nat) :
    Option (List Char) :=
  match self.jsonDocument with
  | some doc => some (serializeJson doc output_size)
  | none => none

/-! ## The transport

`HTTPClient` of the platform is not part of the repository.  A value of this record
is what the client answers to the one request a call issues. -/

/-- The answers of the platform client to one request: whether `begin(url, CAcert)`
connects, the code `sendRequest` returns, what `writeToStream` returns, and the
response body `getString` returns. -/
structure HTTPClient where
  begin : Bool
  sendRequest : Int
  writeToStream : Int
  getString : List Char
  deriving DecidableEq, Repr

/-- The sink of `read(buf, len, ...)`: `ArrayBufferStream(buf, max_len)`. -/
structure ArrayBufferStream where
  max_len : Nat
  deriving DecidableEq, Repr

/-- Decimal digits of a 32-bit value printed with `%u`. -/
def fmt_u (n : Nat) : List Char := (Nat.repr (n % 2 ^ 32)).toList

/-- Decimal digits of a 32-bit value printed with `%d`. -/
def fmt_d (n : Nat) : List Char :=
  if n % 2 ^ 32 < 2 ^ 31 then (Nat.repr (n % 2 ^ 32)).toList
  else '-' :: (Nat.repr (2 ^ 32 - n % 2 ^ 32)).toList

/-- `snprintf(url, sizeof(url), ...)` into `char url[128]`: the formatted text cut to
127 characters. -/
def snprintf_url (text : List Char) : List Char := text.take 127

/-- `bool AmbientSecure::https_send_request(url, method, json_payload,
json_payload_size, stream, tmout)`; a null `stream` is `none`. -/
def AmbientSecure.https_send_request (self : AmbientSecure) (https : HTTPClient)
    (url : List Char) (method : String) (json_payload : Option (List Char))
    (json_payload_size : Nat) (stream : Option ArrayBufferStream) (tmout : Nat) :
    Bool × AmbientSecure :=
  if https.begin then
    let httpCode := https.sendRequest
    let self1 := { self with status := httpCode }
    if httpCode > 0 ∧ httpCode = HTTP_CODE_OK then
      (if stream.isSome ∧ https.writeToStream > 0 then true else false, self1)
    else
      (false, self1)
  else
    (false, self)

/-- `String AmbientSecure::https_send_request(url, method, tmout)`. -/
def AmbientSecure.https_send_request_string (self : AmbientSecure) (https : HTTPClient)
    (url : List Char) (method : String) (tmout : Nat) : List Char × AmbientSecure :=
  if https.begin then
    let httpCode := https.sendRequest
    let self1 := { self with status := httpCode }
    if httpCode > 0 ∧ httpCode = HTTP_CODE_OK then
      (https.getString, self1)
    else
      ([], self1)
  else
    ([], self)

/-- `AmbientSecure::send(uint32_t tmout)`; `none` when building the payload reads a
slot without terminator. -/
def AmbientSecure.send (self : AmbientSecure) (https : HTTPClient) (tmout : Nat) :
    Option (Bool × AmbientSecure) :=
  match self.get_data_as_json 512 with
  | some json_data =>
    let json_data_size := json_data.length
    let url := snprintf_url
      ("https://ambidata.io/api/v2/channels/".toList ++ fmt_d self.channelId ++ "/data".toList)
    some (self.https_send_request https url "POST" (some json_data) json_data_size none tmout)
  | none => none

/-- `AmbientSecure::bulk_send(const char *buf, uint32_t tmout)`: the `bool` of the
request converted to `int32_t`. -/
def AmbientSecure.bulk_send (self : AmbientSecure) (https : HTTPClient) (buf : List Char)
    (tmout : Nat) : Int × AmbientSecure :=
  let url := snprintf_url
    ("https://ambidata.io/api/v2/channels/".toList ++ fmt_d self.channelId ++
      "/dataarray".toList)
  let r := self.https_send_request https url "POST" (some buf) (strlen buf) none tmout
  (if r.1 then 1 else 0, r.2)

/-- The URL of both `read` variants. -/
def AmbientSecure.read_url (self : AmbientSecure) (n : Nat) : List Char :=
  snprintf_url
    ("https://ambidata.io/api/v2/channels/".toList ++ fmt_u self.channelId ++
      "/data?readKey=".toList ++ self.readKey ++ "&n=".toList ++ fmt_u n)

/-- `bool AmbientSecure::read(char *buf, size_t len, size_t n, uint32_t tmout)`. -/
def AmbientSecure.read (self : AmbientSecure) (https : HTTPClient) (len n tmout : Nat) :
    Bool × AmbientSecure :=
  let stream : ArrayBufferStream := { max_len := len }
  self.https_send_request https (self.read_url n) "GET" none 0 (some stream) tmout

/-- `String AmbientSecure::read(size_t n, uint32_t tmout)`. -/
def AmbientSecure.read_string (self : AmbientSecure) (https : HTTPClient) (n tmout : Nat) :
    List Char × AmbientSecure :=
  self.https_send_request_string https (self.read_url n) "GET" tmout

/-- `AmbientSecure::delete_data(const char *userKey, uint32_t tmout)`. -/
def AmbientSecure.delete_data (self : AmbientSecure) (https : HTTPClient)
    (userKey : List Char) (tmout : Nat) : Bool × AmbientSecure :=
  let url := snprintf_url
    ("https://ambidata.io/api/v2/channels/".toList ++ fmt_u self.channelId ++
      "/data?userKey=".toList ++ cstr userKey)
  self.https_send_request https url "DELETE" none 0 none tmout

/-- The string members a filtered parse of the channel response retains; a member
that is absent or not a string is `none`. -/
structure ChannelDoc where
  ch : Option (List Char)
  readKey : Option (List Char)
  writeKey : Option (List Char)
  deriving DecidableEq, Repr

/-- C `isspace`. -/
def isspace (c : Char) : Bool := c.toNat = 32 ∨ (9 ≤ c.toNat ∧ c.toNat ≤ 13)

/-- The value of the leading decimal digits of a string, after an accumulator. -/
def digitsValue : List Char → Nat → Nat
  | [], acc => acc
  | c :: cs, acc => if c.isDigit then digitsValue cs (10 * acc + (c.toNat - 48)) else acc

/-- C `atoi`: blanks, an optional sign, decimal digits. -/
def atoi (p : List Char) : Int :=
  match (cstr p).dropWhile isspace with
  | '-' :: r => - (digitsValue r 0 : Int)
  | '+' :: r => (digitsValue r 0 : Int)
  | r => (digitsValue r 0 : Int)

/-- What `getchannel` leaves behind: the return value, the caller's `channelId`
variable, the caller's two key buffers (`none` for a null pointer), the object. -/
structure ChannelRet where
  ret : Bool
  channelId : Nat
  writeKey : Option (List Char)
  readKey : Option (List Char)
  self : AmbientSecure
  deriving DecidableEq, Repr

/-- `AmbientSecure::getchannel(userKey, devKey, channelId, writeKey, readKey, tmout)`.
The JSON parser with its filter is the parameter `deserializeJson`, `none` being a
parse error.  The result is `none` where the code dereferences a null pointer:
`atoi` of a missing `ch`, and `strcpy` into a key pointer that is null. -/
def AmbientSecure.getchannel (self : AmbientSecure) (https : HTTPClient)
    (deserializeJson : List Char → Option ChannelDoc)
    (userKey devKey : List Char) (channelId : Nat)
    (writeKey readKey : Option (List Char)) (tmout : Nat) : Option ChannelRet :=
  let url := snprintf_url
    ("https://ambidata.io/api/v2/channels/?userKey=".toList ++ cstr userKey ++
      "&devKey=".toList ++ cstr devKey)
  let (response, self1) := self.https_send_request_string https url "GET" tmout
  if response.isEmpty then
    some { ret := false, channelId := channelId, writeKey := writeKey, readKey := readKey,
           self := self1 }
  else
    match deserializeJson response with
    | none =>
      some { ret := false, channelId := channelId, writeKey := writeKey, readKey := readKey,
             self := self1 }
    | some doc =>
      match doc.ch with
      | none => none
      | some ch =>
        let channelId1 := ((atoi ch) % (2 ^ 32 : Int)).toNat
        if writeKey.isNone then none
        else if readKey.isNone then none
        else
          some { ret := true, channelId := channelId1, writeKey := writeKey,
                 readKey := readKey, self := self1 }

/-! ## Statements: what the payload and the status are compared with -/

/-- The set flags of the data slots, in slot order. -/
def AmbientSecure.flags (s : AmbientSecure) : List Bool := s.data.map (fun d => d.set)

/-- The stored bytes of the data slots, in slot order. -/
def AmbientSecure.items (s : AmbientSecure) : List (List Char) := s.data.map (fun d => d.item)

/-- Every slot that is set, and the comment if it is set, holds a terminator. -/
def AmbientSecure.terminated (s : AmbientSecure) : Prop :=
  (∀ d ∈ s.data, d.set = true → NUL ∈ d.item) ∧ (s.cmnt.set = true → NUL ∈ s.cmnt.item)

instance (s : AmbientSecure) : Decidable s.terminated := by
  unfold AmbientSecure.terminated; infer_instance

/-- The member expected for slot number `i` (counted from 0): absent for an unset
slot, otherwise the slot's key with the slot's text. -/
def spec_dataMember (s : AmbientSecure) (i : Nat) : Option (String × JsonVariant) :=
  match s.data.get? i, ambient_keys.get? i with
  | some d, some key => if d.set then some (key, .str (cstr d.item)) else none
  | _, _ => none

/-- The members expected for the slots `i`, …, `i + n - 1`, in increasing order. -/
def spec_dataMembers (s : AmbientSecure) (i n : Nat) : List (String × JsonVariant) :=
  (List.range' i n).filterMap (spec_dataMember s)

/-- The members expected in the payload: `writeKey` first, then the set slots in
increasing order under their keys, then `cmnt` if the comment is set. -/
def spec_members (s : AmbientSecure) : List (String × JsonVariant) :=
  [("writeKey", .str s.writeKey)] ++ spec_dataMembers s 0 11 ++
    (if s.cmnt.set then [("cmnt", .str (cstr s.cmnt.item))] else [])

/-- Pool bytes one member takes: its slot, and the copy of its text with terminator. -/
def memberSize : String × JsonVariant → Nat
  | (_, .str v) => sizeofVariantSlot + v.length + 1
  | (_, .null) => sizeofVariantSlot

/-- Pool bytes a member list takes. -/
def poolSize (members : List (String × JsonVariant)) : Nat := (members.map memberSize).sum

/-- The rule the network operations follow for `status` and for their result: after
a connection the status is the code of the request, without connection it is the
status before the call, and every outcome other than code 200 is a failure. -/
def StatusRule (s : AmbientSecure) (https : HTTPClient) (after : AmbientSecure)
    (failure : Prop) : Prop :=
  (https.begin = true → after.status = https.sendRequest) ∧
  (https.begin = false → after.status = s.status) ∧
  (https.begin = false ∨ https.sendRequest ≠ 200 → failure)

/-! ## Concrete records and transports used in evaluations -/

/-- A freshly constructed object with zeroed arrays. -/
def zeroed : AmbientSecure :=
  { status := 0, CAcert := [], channelId := 0, writeKey := [], readKey := [],
    data := List.replicate 11 { set := false, item := List.replicate 24 NUL },
    cmnt := { set := false, item := List.replicate 64 NUL } }

/-- A record with fields 1 and 3 and the comment set. -/
def fields_1_3_and_comment : AmbientSecure :=
  (((zeroed.set 1 ['1']).self.set 3 ['3']).self.setcmnt ['c']).self

/-- A transport that connects and answers 403. -/
def answer403 : HTTPClient :=
  { begin := true, sendRequest := 403, writeToStream := 0, getString := [] }

/-- A transport that connects and answers 200 with the body `[{"d1":"1"}]`. -/
def answer200 : HTTPClient :=
  { begin := true, sendRequest := 200, writeToStream := 12,
    getString := "[\x7b\"d1\":\"1\"\x7d]".toList }

/-- A transport that cannot connect. -/
def connectionFailure : HTTPClient :=
  { begin := false, sendRequest := -1, writeToStream := 0, getString := [] }

/-- A record with field 1 and the comment set. -/
def field_1_and_comment : AmbientSecure :=
  ((zeroed.set 1 ['1']).self.setcmnt ['c']).self

/-- The channel response `{"ch":"123","readKey":"r","writeKey":"w"}`. -/
def channelBody : List Char :=
  "\x7b\"ch\":\"123\",\"readKey\":\"r\",\"writeKey\":\"w\"\x7d".toList

/-- A parser that knows the members of `channelBody` and rejects any other text. -/
def channelParser (response : List Char) : Option ChannelDoc :=
  if response = channelBody then
    some { ch := some ['1', '2', '3'], readKey := some ['r'], writeKey := some ['w'] }
  else none

/-- An object initialised with channel 100 and write key `k`. -/
def begun : AmbientSecure := (zeroed.begin 100 (some ['k']) none []).self

/-- Fields 2 and 5 set. -/
def fields_2_5 : AmbientSecure := ((begun.set 2 ['a']).self.set 5 ['b']).self

/-- Fields 1 = "23.5" and 2 = "66". -/
def fields_1_2 : AmbientSecure :=
  ((begun.set 1 ['2', '3', '.', '5']).self.set 2 ['6', '6']).self

/-- All eight fields and the comment set, each to one character. -/
def fields_1_to_8_and_comment : AmbientSecure :=
  (((((((((begun.set 1 ['1']).self.set 2 ['2']).self.set 3 ['3']).self.set 4 ['4']).self.set 5
    ['5']).self.set 6 ['6']).self.set 7 ['7']).self.set 8 ['8']).self.setcmnt ['c']).self

/-- A record that does not fit the pool: a write key of 16 characters and fields 1
to 8 set to eight different texts of 5 characters need 209 bytes. -/
def fields_1_to_8_long : AmbientSecure :=
  let s0 := (zeroed.begin 100 (some "0123456789abcdef".toList) none []).self
  let s4 := ((((s0.set 1 "21.01".toList).self.set 2 "22.02".toList).self.set 3
    "23.03".toList).self.set 4 "24.04".toList).self
  ((((s4.set 5 "25.05".toList).self.set 6 "26.06".toList).self.set 7
    "27.07".toList).self.set 8 "28.08".toList).self

/-- A record whose field 1 was set to 24 characters: the slot holds no terminator. -/
def unterminated_field_1 : AmbientSecure := (zeroed.set 1 (List.replicate 24 'a')).self

/-- An object whose last request ended with code 200. -/
def after200 : AmbientSecure := { zeroed with status := 200 }

/-! ## Lemmas on C strings -/

theorem strnlen_gt_iff (p : List Char) (n : Nat) : strnlen p (n + 1) > n ↔ n < strlen p := by
  unfold strnlen
  omega

theorem NUL_not_mem_cstr (p : List Char) : NUL ∉ cstr p := by
  intro h
  have := List.mem_takeWhile_imp h
  simp at this

theorem cstr_append_NUL (t rest : List Char) (h : NUL ∉ t) : cstr (t ++ NUL :: rest) = t := by
  unfold cstr
  induction t with
  | nil => simp [List.takeWhile]
  | cons c cs ih =>
    have hc : (c != NUL) = true := by
      rw [bne_iff_ne]
      exact fun e => h (by simp [e])
    have hcs : NUL ∉ cs := fun e => h (by simp [e])
    rw [List.cons_append, List.takeWhile_cons, hc]
    simp only [if_true]
    rw [ih hcs]

/-- A text shorter than the array is read back whole after `strncpy`. -/
theorem readItem_strncpy (dst src : List Char) (n : Nat) (h : strlen src < n) :
    readItem (strncpy dst src n) = some (cstr src) := by
  unfold strlen at h
  have ht : (cstr src).take n = cstr src := List.take_of_length_le (by omega)
  obtain ⟨m, hm⟩ : ∃ m, n - (cstr src).length = m + 1 := ⟨n - (cstr src).length - 1, by omega⟩
  have hs : strncpy dst src n = cstr src ++ NUL :: (List.replicate m NUL ++ dst.drop n) := by
    simp [strncpy, ht, hm, List.replicate_succ]
  rw [hs]
  unfold readItem
  rw [if_pos (by simp), cstr_append_NUL _ _ (NUL_not_mem_cstr src)]

/-- A text that fills the array is stored without terminator. -/
theorem strncpy_full (dst src : List Char) (n : Nat) (h : strlen src = n) (hd : dst.length = n) :
    strncpy dst src n = cstr src := by
  unfold strlen at h
  have ht : (cstr src).take n = cstr src := List.take_of_length_le (by omega)
  have hdrop : dst.drop n = [] := List.drop_eq_nil_of_le (le_of_eq hd)
  unfold strncpy
  simp only [ht, hdrop, h, Nat.sub_self, List.replicate_zero, List.append_nil]

/-! ## Lemmas on the record operations -/

theorem modifyData_length (data : List AmbientSecureData) (i : Nat)
    (f : AmbientSecureData → AmbientSecureData) :
    (modifyData data i f).length = data.length := by
  unfold modifyData
  split <;> simp

theorem modifyData_get?_self (data : List AmbientSecureData) (i : Nat)
    (f : AmbientSecureData → AmbientSecureData) (h : i < data.length) :
    (modifyData data i f).get? i = (data.get? i).map f := by
  unfold modifyData
  have : data.get? i = some (data.get ⟨i, h⟩) := List.get?_eq_get h
  simp [this, h]

theorem modifyData_get?_other (data : List AmbientSecureData) (i j : Nat)
    (f : AmbientSecureData → AmbientSecureData) (h : j ≠ i) :
    (modifyData data i f).get? j = data.get? j := by
  unfold modifyData
  split
  · simp [List.getElem?_set, Ne.symm h]
  · rfl

theorem modifyData_map_of_frame {β : Type} (data : List AmbientSecureData) (i : Nat)
    (f : AmbientSecureData → AmbientSecureData) (g : AmbientSecureData → β)
    (hg : ∀ d, g (f d) = g d) :
    (modifyData data i f).map g = data.map g := by
  unfold modifyData
  split
  · next d hd =>
    apply List.ext_get?
    intro j
    by_cases hj : j = i
    · subst hj
      simp only [List.get?_eq_getElem?] at hd
      simp [List.getElem?_set, hd, hg]
      by_cases hlt : j < data.length
      · simp [hlt, hg]
      · simp [hlt]
        have : data[j]? = none := by simp; omega
        simp [this] at hd
    · simp [List.getElem?_set, Ne.symm hj]
  · rfl

theorem set_out_of_range (s : AmbientSecure) (field : Nat) (data : List Char)
    (h : field < 1 ∨ 11 < field) :
    s.set field data = { ret := false, loge := some (.outOfBound field), self := s } := by
  unfold AmbientSecure.set AMBIENT_SECURE_NUM_PARAMS
  rw [if_pos h]

theorem clear_out_of_range (s : AmbientSecure) (field : Nat) (h : field < 1 ∨ 11 < field) :
    s.clear field = { ret := false, loge := some (.outOfBound field), self := s } := by
  unfold AmbientSecure.clear AMBIENT_SECURE_NUM_PARAMS
  rw [if_pos h]

theorem set_too_long (s : AmbientSecure) (field : Nat) (data : List Char)
    (hr : ¬ (field < 1 ∨ 11 < field)) (h : 24 < strlen data) :
    s.set field data = { ret := false, loge := some (.tooLongData field), self := s } := by
  unfold AmbientSecure.set AMBIENT_SECURE_NUM_PARAMS AMBIENT_SECURE_DATA_SIZE
  rw [if_neg hr, if_pos ((strnlen_gt_iff data 24).mpr h)]

theorem set_ret_false_self (s : AmbientSecure) (field : Nat) (data : List Char)
    (h : (s.set field data).ret = false) : (s.set field data).self = s := by
  unfold AmbientSecure.set at h ⊢
  split
  · rfl
  · split
    · rfl
    · rename_i h1 h2
      rw [if_neg h1, if_neg h2] at h
      simp at h

theorem setcmnt_ret_iff (s : AmbientSecure) (cmnt : List Char) :
    (s.setcmnt cmnt).ret = true ↔ strlen cmnt ≤ 24 := by
  unfold AmbientSecure.setcmnt AMBIENT_SECURE_CMNT_SIZE AMBIENT_SECURE_DATA_SIZE strnlen
  split
  · rename_i h
    simp
    omega
  · rename_i h
    simp
    omega

theorem setcmnt_ret_false_self (s : AmbientSecure) (cmnt : List Char)
    (h : (s.setcmnt cmnt).ret = false) : (s.setcmnt cmnt).self = s := by
  unfold AmbientSecure.setcmnt at h ⊢
  split
  · rfl
  · rename_i h1
    rw [if_neg h1] at h
    simp at h

theorem clear_ret_false_self (s : AmbientSecure) (field : Nat)
    (h : (s.clear field).ret = false) : (s.clear field).self = s := by
  unfold AmbientSecure.clear at h ⊢
  split
  · rfl
  · rename_i h1
    rw [if_neg h1] at h
    simp at h

theorem clear_in_range (s : AmbientSecure) (field : Nat) (h : ¬ (field < 1 ∨ 11 < field)) :
    s.clear field =
      { ret := true, loge := none,
        self := { s with
          data := (modifyData s.data (field - 1) (fun d => { d with set := false })),
          cmnt := { s.cmnt with set := false } } } := by
  unfold AmbientSecure.clear AMBIENT_SECURE_NUM_PARAMS
  rw [if_neg h]

theorem set_in_range (s : AmbientSecure) (field : Nat) (data : List Char)
    (hr : ¬ (field < 1 ∨ 11 < field)) (h : strlen data ≤ 24) :
    s.set field data =
      { ret := true, loge := none,
        self := { s with
          data := (modifyData (modifyData s.data (field - 1) (fun d => { d with set := true }))
            (field - 1) (fun d => { d with item := strncpy d.item data 24 })) } } := by
  have hlen : ¬ (strnlen data (AMBIENT_SECURE_DATA_SIZE + 1) > AMBIENT_SECURE_DATA_SIZE) := by
    unfold AMBIENT_SECURE_DATA_SIZE
    rw [strnlen_gt_iff]
    omega
  unfold AmbientSecure.set
  rw [if_neg (by simpa [AMBIENT_SECURE_NUM_PARAMS] using hr), if_neg hlen]
  rfl

/-- A text of at most 23 characters is stored in its slot with terminator and reads
back whole. -/
theorem set_reads_back (s : AmbientSecure) (k : Nat) (data : List Char)
    (hlen : s.data.length = 11) (h1 : 1 ≤ k) (h11 : k ≤ 11) (hfit : strlen data < 24) :
    (s.set k data).ret = true ∧
    ∃ d, (s.set k data).self.data.get? (k - 1) = some d ∧ d.set = true ∧
      readItem d.item = some (cstr data) := by
  rw [set_in_range s k data (by omega) (by omega)]
  refine ⟨rfl, ?_⟩
  have hk : k - 1 < s.data.length := by omega
  have hk1 : k - 1 < (modifyData s.data (k - 1) (fun d => { d with set := true })).length := by
    rw [modifyData_length]
    exact hk
  simp only
  rw [modifyData_get?_self _ _ _ hk1, modifyData_get?_self _ _ _ hk, List.get?_eq_get hk]
  exact ⟨_, rfl, rfl, readItem_strncpy _ _ 24 hfit⟩

/-- An accepted comment is stored with terminator and reads back whole. -/
theorem setcmnt_reads_back (s : AmbientSecure) (cmnt : List Char) (h : strlen cmnt ≤ 24) :
    (s.setcmnt cmnt).ret = true ∧ (s.setcmnt cmnt).self.cmnt.set = true ∧
    readItem (s.setcmnt cmnt).self.cmnt.item = some (cstr cmnt) := by
  have hlen : ¬ (strnlen cmnt (AMBIENT_SECURE_CMNT_SIZE + 1) > AMBIENT_SECURE_DATA_SIZE) := by
    unfold strnlen AMBIENT_SECURE_CMNT_SIZE AMBIENT_SECURE_DATA_SIZE
    omega
  unfold AmbientSecure.setcmnt
  rw [if_neg hlen]
  exact ⟨rfl, rfl, readItem_strncpy _ _ 64 (by omega)⟩

/-! ## Claims on the record store -/

/-- C1, as amended: for every field index outside 1..11 (0 and every value from 12 on)
and every text, `set` and `clear` return false after logging the out-of-bound line
and leave the whole object unchanged. -/
theorem set_clear_reject_outside_1_to_11 (s : AmbientSecure) (field : Nat) (data : List Char)
    (h : field < 1 ∨ 11 < field) :
    s.set field data = { ret := false, loge := some (.outOfBound field), self := s } ∧
    s.clear field = { ret := false, loge := some (.outOfBound field), self := s } :=
  ⟨set_out_of_range s field data h, clear_out_of_range s field h⟩

theorem set_clear_reject_outside_1_to_11_witness :
    (12 < 1 ∨ 11 < 12) ∧
    zeroed.set 12 ['x'] = { ret := false, loge := some (.outOfBound 12), self := zeroed } ∧
    zeroed.clear 12 = { ret := false, loge := some (.outOfBound 12), self := zeroed } :=
  ⟨by decide, set_clear_reject_outside_1_to_11 zeroed 12 ['x'] (by decide)⟩

/-- C1, as stated, fails at index 9: `set(9, "x")` returns true and marks slot 9
set, and `clear(9)` returns true and resets the comment flag. -/
theorem set_clear_accept_index_9 :
    (zeroed.set 9 ['x']).ret = true ∧
    (zeroed.set 9 ['x']).self.flags =
      [false, false, false, false, false, false, false, false, true, false, false] ∧
    (zeroed.setcmnt ['c']).self.cmnt.set = true ∧
    ((zeroed.setcmnt ['c']).self.clear 9).ret = true ∧
    ((zeroed.setcmnt ['c']).self.clear 9).self.cmnt.set = false := by
  decide

/-- C3, evaluated at a comment of 25 characters: `setcmnt` logs the too-long line,
returns false and stores nothing, although the comment array has 64 bytes. -/
theorem setcmnt_rejects_25_characters :
    zeroed.setcmnt (List.replicate 25 'a') =
      { ret := false, loge := some .tooLongComment, self := zeroed } ∧
    strlen (List.replicate 25 'a') = 25 := by
  decide

/-- C4, evaluated at a text of 24 characters: `set` returns true, the text with its
terminator does not fit the 24 bytes, and the slot is left without terminator. -/
theorem set_accepts_24_characters :
    (zeroed.set 1 (List.replicate 24 'a')).ret = true ∧
    ¬ (strlen (List.replicate 24 'a') + 1 ≤ 24) ∧
    (zeroed.set 1 (List.replicate 24 'a')).self.data.get? 0 =
      some { set := true, item := List.replicate 24 'a' } ∧
    readItem (List.replicate 24 'a') = none := by
  decide

/-- C9: a text longer than 24 makes `set` return false (with the too-long line when
the index is accepted), a text longer than 64 makes `setcmnt` return false with the
too-long line, and whenever `set`, `setcmnt` or `clear` returns false the object is
the one before the call. -/
theorem failed_calls_leave_record (s : AmbientSecure) (field : Nat) (data cmnt : List Char) :
    (24 < strlen data → (s.set field data).ret = false) ∧
    (24 < strlen data → 1 ≤ field → field ≤ 11 →
      (s.set field data).loge = some (.tooLongData field)) ∧
    (64 < strlen cmnt →
      (s.setcmnt cmnt).ret = false ∧ (s.setcmnt cmnt).loge = some .tooLongComment) ∧
    ((s.set field data).ret = false → (s.set field data).self = s) ∧
    ((s.setcmnt cmnt).ret = false → (s.setcmnt cmnt).self = s) ∧
    ((s.clear field).ret = false → (s.clear field).self = s) := by
  refine ⟨?_, ?_, ?_, set_ret_false_self s field data, setcmnt_ret_false_self s cmnt,
    clear_ret_false_self s field⟩
  · intro h
    by_cases hr : field < 1 ∨ 11 < field
    · rw [set_out_of_range s field data hr]
    · rw [set_too_long s field data hr h]
  · intro h h1 h11
    rw [set_too_long s field data (by omega) h]
  · intro h
    have hgt : strnlen cmnt (AMBIENT_SECURE_CMNT_SIZE + 1) > AMBIENT_SECURE_DATA_SIZE := by
      unfold strnlen AMBIENT_SECURE_CMNT_SIZE AMBIENT_SECURE_DATA_SIZE
      omega
    unfold AmbientSecure.setcmnt
    rw [if_pos hgt]
    exact ⟨rfl, rfl⟩

theorem failed_calls_leave_record_witness :
    24 < strlen (List.replicate 25 'a') ∧ 64 < strlen (List.replicate 65 'b') ∧
    (zeroed.set 1 (List.replicate 25 'a')).ret = false ∧
    (zeroed.set 1 (List.replicate 25 'a')).loge = some (.tooLongData 1) ∧
    (zeroed.setcmnt (List.replicate 65 'b')).ret = false ∧
    (zeroed.set 1 (List.replicate 25 'a')).self = zeroed ∧
    (zeroed.setcmnt (List.replicate 65 'b')).self = zeroed ∧
    (zeroed.clear 0).self = zeroed :=
  have t := failed_calls_leave_record zeroed 1 (List.replicate 25 'a') (List.replicate 65 'b')
  have t0 := failed_calls_leave_record zeroed 0 (List.replicate 25 'a') (List.replicate 65 'b')
  have ha : 24 < strlen (List.replicate 25 'a') := by decide
  have hb : 64 < strlen (List.replicate 65 'b') := by decide
  ⟨ha, hb, t.1 ha, t.2.1 ha (by decide) (by decide), (t.2.2.1 hb).1,
    t.2.2.2.1 (t.1 ha), t.2.2.2.2.1 (t.2.2.1 hb).1, t0.2.2.2.2.2 (by decide)⟩

/-- C10: for every index k in 1..8, `clear(k)` returns true, leaves the flag of field
k and the comment flag false, and leaves every other slot, every stored text and the
other members of the object as they were. -/
theorem clear_resets_field_and_comment_flag (s : AmbientSecure) (k : Nat)
    (hlen : s.data.length = 11) (h1 : 1 ≤ k) (h8 : k ≤ 8) :
    (s.clear k).ret = true ∧ (s.clear k).loge = none ∧
    ((s.clear k).self.data.get? (k - 1)).map (fun d => d.set) = some false ∧
    (s.clear k).self.cmnt.set = false ∧
    (∀ j, j ≠ k - 1 → (s.clear k).self.data.get? j = s.data.get? j) ∧
    (s.clear k).self.items = s.items ∧
    (s.clear k).self.cmnt.item = s.cmnt.item ∧
    (s.clear k).self.status = s.status ∧ (s.clear k).self.writeKey = s.writeKey ∧
    (s.clear k).self.readKey = s.readKey ∧ (s.clear k).self.channelId = s.channelId := by
  rw [clear_in_range s k (by omega)]
  refine ⟨rfl, rfl, ?_, rfl, ?_, ?_, rfl, rfl, rfl, rfl, rfl⟩
  · have hk : k - 1 < s.data.length := by omega
    simp only
    rw [modifyData_get?_self _ _ _ hk, List.get?_eq_get hk]
    rfl
  · intro j hj
    exact modifyData_get?_other _ _ _ _ hj
  · exact modifyData_map_of_frame _ _ _ _ (fun d => rfl)

theorem clear_resets_field_and_comment_flag_witness :
    fields_1_3_and_comment.flags =
      [true, false, true, false, false, false, false, false, false, false, false] ∧
    fields_1_3_and_comment.cmnt.set = true ∧
    (fields_1_3_and_comment.clear 3).self.flags =
      [true, false, false, false, false, false, false, false, false, false, false] ∧
    (fields_1_3_and_comment.clear 3).ret = true ∧
    (fields_1_3_and_comment.clear 3).self.cmnt.set = false :=
  have t := clear_resets_field_and_comment_flag fields_1_3_and_comment 3
    (by decide) (by decide) (by decide)
  ⟨by decide, by decide, by decide, t.1, t.2.2.2.1⟩

/-! ## Lemmas on the transport adapter -/

/-- The object after the `bool` request: the code of the request when the connection
was made, the object before the call otherwise. -/
theorem https_send_request_self (s : AmbientSecure) (https : HTTPClient) (url : List Char)
    (method : String) (json_payload : Option (List Char)) (json_payload_size : Nat)
    (stream : Option ArrayBufferStream) (tmout : Nat) :
    (s.https_send_request https url method json_payload json_payload_size stream tmout).2 =
      if https.begin then { s with status := https.sendRequest } else s := by
  unfold AmbientSecure.https_send_request
  by_cases hb : https.begin = true
  · by_cases hc : https.sendRequest > 0 ∧ https.sendRequest = HTTP_CODE_OK
    · simp only [hb, if_true]
      rw [if_pos hc]
    · simp only [hb, if_true]
      rw [if_neg hc]
  · simp only [hb, if_false, Bool.false_eq_true]

/-- The `bool` request returns true only on code 200 with a sink that received
bytes. -/
theorem https_send_request_ret (s : AmbientSecure) (https : HTTPClient) (url : List Char)
    (method : String) (json_payload : Option (List Char)) (json_payload_size : Nat)
    (stream : Option ArrayBufferStream) (tmout : Nat) :
    (s.https_send_request https url method json_payload json_payload_size stream tmout).1 = true ↔
      https.begin = true ∧ https.sendRequest = 200 ∧ stream.isSome = true ∧
        https.writeToStream > 0 := by
  unfold AmbientSecure.https_send_request HTTP_CODE_OK
  by_cases hb : https.begin = true
  · by_cases hc : https.sendRequest = 200
    · simp [hb, hc]
    · have : ¬ (https.sendRequest > 0 ∧ https.sendRequest = 200) := fun h => hc h.2
      simp [hb, hc, this]
  · simp [hb]

/-- Without a sink the `bool` request returns false whatever the transport answers. -/
theorem https_send_request_null_stream (s : AmbientSecure) (https : HTTPClient)
    (url : List Char) (method : String) (json_payload : Option (List Char))
    (json_payload_size : Nat) (tmout : Nat) :
    (s.https_send_request https url method json_payload json_payload_size none tmout).1 =
      false := by
  have h := https_send_request_ret s https url method json_payload json_payload_size none tmout
  cases hr : (s.https_send_request https url method json_payload json_payload_size none
    tmout).1
  · rfl
  · rw [hr] at h
    simp at h

/-- The object after the `String` request. -/
theorem https_send_request_string_self (s : AmbientSecure) (https : HTTPClient)
    (url : List Char) (method : String) (tmout : Nat) :
    (s.https_send_request_string https url method tmout).2 =
      if https.begin then { s with status := https.sendRequest } else s := by
  unfold AmbientSecure.https_send_request_string
  by_cases hb : https.begin = true
  · by_cases hc : https.sendRequest > 0 ∧ https.sendRequest = HTTP_CODE_OK
    · simp only [hb, if_true]
      rw [if_pos hc]
    · simp only [hb, if_true]
      rw [if_neg hc]
  · simp only [hb, if_false, Bool.false_eq_true]

/-- The text of the `String` request: the body on code 200, empty otherwise. -/
theorem https_send_request_string_text (s : AmbientSecure) (https : HTTPClient)
    (url : List Char) (method : String) (tmout : Nat) :
    (s.https_send_request_string https url method tmout).1 =
      if https.begin = true ∧ https.sendRequest = 200 then https.getString else [] := by
  unfold AmbientSecure.https_send_request_string HTTP_CODE_OK
  by_cases hb : https.begin = true
  · by_cases hc : https.sendRequest = 200
    · simp [hb, hc]
    · have : ¬ (https.sendRequest > 0 ∧ https.sendRequest = 200) := fun h => hc h.2
      simp [hb, hc, this]
  · simp [hb]

/-- `send` leaves every slot and the comment as they were, whatever the transport
answers. -/
theorem send_keeps_record (s : AmbientSecure) (https : HTTPClient) (tmout : Nat)
    (r : Bool × AmbientSecure) (h : s.send https tmout = some r) :
    r.2.data = s.data ∧ r.2.cmnt = s.cmnt ∧ r.1 = false := by
  unfold AmbientSecure.send at h
  split at h
  · simp only [Option.some.injEq] at h
    subst h
    rw [https_send_request_self, https_send_request_null_stream]
    split <;> exact ⟨rfl, rfl, rfl⟩
  · exact absurd h (by simp)

/-- `bulk_send` returns 0 whatever the transport answers. -/
theorem bulk_send_returns_0 (s : AmbientSecure) (https : HTTPClient) (buf : List Char)
    (tmout : Nat) : (s.bulk_send https buf tmout).1 = 0 := by
  unfold AmbientSecure.bulk_send
  simp only [https_send_request_null_stream]
  rfl

/-- `getchannel` never writes the caller's key buffers. -/
theorem getchannel_keeps_buffers (s : AmbientSecure) (https : HTTPClient)
    (deserializeJson : List Char → Option ChannelDoc) (userKey devKey : List Char)
    (channelId : Nat) (writeKey readKey : Option (List Char)) (tmout : Nat)
    (r : ChannelRet)
    (h : s.getchannel https deserializeJson userKey devKey channelId writeKey readKey tmout
      = some r) :
    r.writeKey = writeKey ∧ r.readKey = readKey := by
  unfold AmbientSecure.getchannel at h
  simp only at h
  split at h
  · simp only [Option.some.injEq] at h
    subst h
    exact ⟨rfl, rfl⟩
  · split at h
    · simp only [Option.some.injEq] at h
      subst h
      exact ⟨rfl, rfl⟩
    · split at h
      · exact absurd h (by simp)
      · split at h
        · exact absurd h (by simp)
        · split at h
          · exact absurd h (by simp)
          · simp only [Option.some.injEq] at h
            subst h
            exact ⟨rfl, rfl⟩

/-- On a 200 response that parses, with a `ch` member and two non-null key buffers,
`getchannel` returns true, stores the number of `ch`, and leaves both buffers as
they were. -/
theorem getchannel_succeeds (s : AmbientSecure) (https : HTTPClient)
    (deserializeJson : List Char → Option ChannelDoc) (userKey devKey : List Char)
    (channelId : Nat) (w r : List Char) (tmout : Nat) (doc : ChannelDoc) (ch : List Char)
    (hb : https.begin = true) (hc : https.sendRequest = 200)
    (hbody : https.getString.isEmpty = false)
    (hdoc : deserializeJson https.getString = some doc) (hch : doc.ch = some ch) :
    s.getchannel https deserializeJson userKey devKey channelId (some w) (some r) tmout =
      some { ret := true, channelId := ((atoi ch) % (2 ^ 32 : Int)).toNat,
             writeKey := some w, readKey := some r, self := { s with status := 200 } } := by
  have hreq : ∀ url, s.https_send_request_string https url "GET" tmout =
      (https.getString, { s with status := 200 }) := by
    intro url
    apply Prod.ext
    · rw [https_send_request_string_text, if_pos ⟨hb, hc⟩]
    · rw [https_send_request_string_self, hb, hc]
      rfl
  unfold AmbientSecure.getchannel
  simp only [hreq, hbody, Bool.false_eq_true, if_false, hdoc, hch, Option.isNone_some]

/-- C2, evaluated with field 1 and the comment set and a transport answering 403:
`send` returns false and the status is 403, but field 1 and the comment are still
set after the call. -/
theorem send_403_does_not_clear :
    field_1_and_comment.send answer403 30000 =
      some (false, { field_1_and_comment with status := 403 }) ∧
    ({ field_1_and_comment with status := 403 } : AmbientSecure).flags =
      [true, false, false, false, false, false, false, false, false, false, false] ∧
    ({ field_1_and_comment with status := 403 } : AmbientSecure).cmnt.set = true := by
  decide

/-- C6, evaluated with a transport answering 200 with body `[{"d1":"1"}]`: the status
is 200, but `bulk_send` returns 0 and `send` returns false. -/
theorem bulk_send_200_returns_0 :
    zeroed.bulk_send answer200 "[\x7b\"d1\":\"1\"\x7d]".toList 30000 =
      (0, { zeroed with status := 200 }) ∧
    zeroed.send answer200 30000 = some (false, { zeroed with status := 200 }) := by
  decide

/-- C7, evaluated on a 200 response carrying ch 123, readKey r and writeKey w, with
two zeroed 18-byte key buffers: `getchannel` returns true and sets the channel id
to 123, but both key buffers are still zeroed; with a null readKey pointer the call
does not return. -/
theorem getchannel_does_not_store_keys :
    zeroed.getchannel { answer200 with getString := channelBody } channelParser ['u'] ['d'] 0
        (some (List.replicate 18 NUL)) (some (List.replicate 18 NUL)) 30000 =
      some { ret := true, channelId := 123, writeKey := some (List.replicate 18 NUL),
             readKey := some (List.replicate 18 NUL), self := { zeroed with status := 200 } } ∧
    zeroed.getchannel { answer200 with getString := channelBody } channelParser ['u'] ['d'] 0
        (some (List.replicate 18 NUL)) none 30000 = none := by
  decide

theorem ambient_keys_distinct :
    ∀ i, i < 11 → ∀ j, j < 11 → i ≠ j → ambient_keys.get? i ≠ ambient_keys.get? j := by
  decide

theorem ambient_keys_ne_writeKey : ∀ i, i < 11 → ambient_keys.get? i ≠ some "writeKey" := by
  decide

theorem ambient_keys_ne_cmnt : ∀ i, i < 11 → ambient_keys.get? i ≠ some "cmnt" := by
  decide

theorem ambient_keys_get?_isSome : ∀ i, i < 11 → (ambient_keys.get? i).isSome = true := by
  decide

/-- Assigning a key the document does not hold yet, with room in the pool, appends
the member. -/
theorem assign_new (doc : StaticJsonDocument) (key : String) (value : List Char)
    (hkey : ∀ m ∈ doc.members, m.1 ≠ key)
    (hroom : doc.usage + (sizeofVariantSlot + value.length + 1) ≤ doc.capacity) :
    doc.assign key value =
      { capacity := doc.capacity,
        usage := doc.usage + (sizeofVariantSlot + value.length + 1),
        members := doc.members ++ [(key, .str value)] } := by
  have hany : doc.members.any (fun m => m.1 == key) = false := by
    rw [List.any_eq_false]
    intro m hm
    simpa using hkey m hm
  have hslot : doc.usage + sizeofVariantSlot ≤ doc.capacity := by omega
  have hstr : doc.usage + sizeofVariantSlot + (value.length + 1) ≤ doc.capacity := by omega
  unfold StaticJsonDocument.assign
  rw [hany]
  simp only [Bool.false_eq_true, if_false, if_pos hslot]
  unfold StaticJsonDocument.saveString
  simp only [if_pos hstr]
  congr 1
  omega

theorem spec_dataMembers_succ (s : AmbientSecure) (i n : Nat) :
    spec_dataMembers s i (n + 1) =
      (match spec_dataMember s i with
        | some m => [m]
        | none => []) ++ spec_dataMembers s (i + 1) n := by
  unfold spec_dataMembers
  rw [List.range'_succ, List.filterMap_cons]
  cases spec_dataMember s i <;> rfl

theorem poolSize_append (a b : List (String × JsonVariant)) :
    poolSize (a ++ b) = poolSize a + poolSize b := by
  unfold poolSize
  rw [List.map_append, List.sum_append]

/-- The loop appends the expected members of the slots it visits, when the slots read
are terminated and the pool has room for the members. -/
theorem dataLoop_spec (s : AmbientSecure) (hlen : s.data.length = 11)
    (hterm : ∀ d ∈ s.data, d.set = true → NUL ∈ d.item) :
    ∀ (n i : Nat) (doc : StaticJsonDocument), i + n ≤ 11 →
      (∀ m ∈ doc.members, ∀ j, i ≤ j → j < 11 → ambient_keys.get? j ≠ some m.1) →
      doc.usage + poolSize (spec_dataMembers s i n) ≤ doc.capacity →
      dataLoop s n i doc =
        some { capacity := doc.capacity,
               usage := doc.usage + poolSize (spec_dataMembers s i n),
               members := doc.members ++ spec_dataMembers s i n } := by
  intro n
  induction n with
  | zero =>
    intro i doc _ _ _
    simp [dataLoop, spec_dataMembers, poolSize]
  | succ n ih =>
    intro i doc hin hkeys hroom
    have hi : i < s.data.length := by omega
    have hd : s.data.get? i = some (s.data.get ⟨i, hi⟩) := List.get?_eq_get hi
    obtain ⟨key, hk⟩ := Option.isSome_iff_exists.mp (ambient_keys_get?_isSome i (by omega))
    rw [spec_dataMembers_succ] at hroom ⊢
    unfold dataLoop
    rw [hd, hk]
    simp only
    have hm : spec_dataMember s i =
        if (s.data.get ⟨i, hi⟩).set then some (key, .str (cstr (s.data.get ⟨i, hi⟩).item))
        else none := by
      unfold spec_dataMember
      rw [hd, hk]
    rw [hm] at hroom ⊢
    by_cases hset : (s.data.get ⟨i, hi⟩).set = true
    · have hnul : NUL ∈ (s.data.get ⟨i, hi⟩).item :=
        hterm _ (List.get_mem _ _ _) hset
      have hread : readItem (s.data.get ⟨i, hi⟩).item =
          some (cstr (s.data.get ⟨i, hi⟩).item) := by
        unfold readItem
        rw [if_pos hnul]
      simp only [hset, if_true] at hroom ⊢
      rw [hread]
      simp only
      have hsz : poolSize [(key, JsonVariant.str (cstr (s.data.get ⟨i, hi⟩).item))] =
          sizeofVariantSlot + (cstr (s.data.get ⟨i, hi⟩).item).length + 1 := by
        simp [poolSize, memberSize]
      have hsplit : ∀ l : List (String × JsonVariant),
          poolSize ((key, JsonVariant.str (cstr (s.data.get ⟨i, hi⟩).item)) :: l) =
            sizeofVariantSlot + (cstr (s.data.get ⟨i, hi⟩).item).length + 1 + poolSize l := by
        intro l
        rw [← List.singleton_append, poolSize_append, hsz]
      simp only [List.singleton_append, hsplit] at hroom ⊢
      have hnew : ∀ m ∈ doc.members, m.1 ≠ key := by
        intro m hmm e
        exact hkeys m hmm i (le_refl i) (by omega) (by rw [hk, e])
      rw [assign_new doc key _ hnew (by omega)]
      rw [ih (i + 1) _ (by omega) ?_ ?_]
      · simp only [List.append_assoc, List.singleton_append]
        congr 2
        omega
      · intro m hmm j hij hj
        simp only [List.mem_append, List.mem_singleton] at hmm
        rcases hmm with hmm | hmm
        · exact hkeys m hmm j (by omega) hj
        · subst hmm
          intro e
          exact ambient_keys_distinct i (by omega) j hj (by omega) (by rw [hk, e])
      · simp only
        omega
    · simp only [hset, Bool.false_eq_true, if_false] at hroom ⊢
      rw [ih (i + 1) doc (by omega) ?_ ?_]
      · simp
      · intro m hmm j hij hj
        exact hkeys m hmm j (by omega) hj
      · simpa using hroom

theorem spec_dataMembers_key (s : AmbientSecure) (i n : Nat) :
    ∀ m ∈ spec_dataMembers s i n, m.1 ∈ ambient_keys := by
  intro m hm
  unfold spec_dataMembers at hm
  rw [List.mem_filterMap] at hm
  obtain ⟨j, _, hj⟩ := hm
  unfold spec_dataMember at hj
  split at hj
  · rename_i d key hd hk
    split at hj
    · simp only [Option.some.injEq] at hj
      subst hj
      exact List.get?_mem hk
    · exact absurd hj (by simp)
  · exact absurd hj (by simp)

theorem ambient_keys_no_cmnt : ∀ key ∈ ambient_keys, key ≠ "cmnt" := by
  decide

/-- The document of the payload holds exactly the expected members, when the slots
read are terminated and the members fit the pool of 192 bytes. -/
theorem jsonDocument_spec (s : AmbientSecure) (hlen : s.data.length = 11)
    (hterm : s.terminated) (hpool : poolSize (spec_members s) ≤ 192) :
    s.jsonDocument =
      some { capacity := 192, usage := poolSize (spec_members s), members := spec_members s } := by
  unfold spec_members at hpool ⊢
  rw [poolSize_append, poolSize_append] at hpool
  have hwk : poolSize [("writeKey", JsonVariant.str s.writeKey)] =
      sizeofVariantSlot + s.writeKey.length + 1 := by
    simp [poolSize, memberSize]
  have h1 : (StaticJsonDocument.new 192).assign "writeKey" s.writeKey =
      { capacity := 192, usage := sizeofVariantSlot + s.writeKey.length + 1,
        members := [("writeKey", .str s.writeKey)] } := by
    rw [assign_new]
    · simp [StaticJsonDocument.new]
    · intro m hm
      simp [StaticJsonDocument.new] at hm
    · simp only [StaticJsonDocument.new]
      omega
  unfold AmbientSecure.jsonDocument
  simp only [h1, AMBIENT_SECURE_NUM_PARAMS]
  rw [dataLoop_spec s hlen hterm.1 11 0 _ (by omega) ?_ ?_]
  · simp only
    by_cases hc : s.cmnt.set = true
    · have hread : readItem s.cmnt.item = some (cstr s.cmnt.item) := by
        unfold readItem
        rw [if_pos (hterm.2 hc)]
      have hcm : poolSize [("cmnt", JsonVariant.str (cstr s.cmnt.item))] =
          sizeofVariantSlot + (cstr s.cmnt.item).length + 1 := by
        simp [poolSize, memberSize]
      simp only [hc, if_true] at hpool ⊢
      rw [hread]
      simp only
      rw [assign_new]
      · simp only [poolSize_append, hwk, hcm]
      · intro m hm
        simp only [List.mem_append, List.mem_singleton] at hm
        rcases hm with hm | hm
        · subst hm
          show "writeKey" ≠ "cmnt"
          decide
        · exact ambient_keys_no_cmnt _ (spec_dataMembers_key s 0 11 m hm)
      · simp only
        omega
    · simp only [hc, Bool.false_eq_true, if_false, List.append_nil, poolSize_append, hwk]
  · intro m hm j _ hj
    simp only [List.mem_singleton] at hm
    subst hm
    exact ambient_keys_ne_writeKey j hj
  · simp only
    omega

/-- The loop ends with a document when the slots it reads are terminated. -/
theorem dataLoop_isSome (s : AmbientSecure) (hlen : s.data.length = 11)
    (hterm : ∀ d ∈ s.data, d.set = true → NUL ∈ d.item) :
    ∀ (n i : Nat) (doc : StaticJsonDocument), i + n ≤ 11 →
      ∃ doc1, dataLoop s n i doc = some doc1 := by
  intro n
  induction n with
  | zero =>
    intro i doc _
    exact ⟨doc, rfl⟩
  | succ n ih =>
    intro i doc hin
    have hi : i < s.data.length := by omega
    have hd : s.data.get? i = some (s.data.get ⟨i, hi⟩) := List.get?_eq_get hi
    obtain ⟨key, hk⟩ := Option.isSome_iff_exists.mp (ambient_keys_get?_isSome i (by omega))
    unfold dataLoop
    rw [hd, hk]
    simp only
    by_cases hset : (s.data.get ⟨i, hi⟩).set = true
    · have hread : readItem (s.data.get ⟨i, hi⟩).item =
          some (cstr (s.data.get ⟨i, hi⟩).item) := by
        unfold readItem
        rw [if_pos (hterm _ (List.get_mem _ _ _) hset)]
      simp only [hset, if_true, hread]
      exact ih (i + 1) _ (by omega)
    · simp only [hset, Bool.false_eq_true, if_false]
      exact ih (i + 1) _ (by omega)

/-- The payload is produced whenever the slots read are terminated. -/
theorem get_data_as_json_returns (s : AmbientSecure) (output_size : Nat)
    (hlen : s.data.length = 11) (hterm : s.terminated) :
    ∃ text, s.get_data_as_json output_size = some text := by
  unfold AmbientSecure.get_data_as_json AmbientSecure.jsonDocument
  obtain ⟨doc1, h1⟩ := dataLoop_isSome s hlen hterm.1 AMBIENT_SECURE_NUM_PARAMS 0
    ((StaticJsonDocument.new 192).assign "writeKey" s.writeKey) (by decide)
  simp only [h1]
  by_cases hc : s.cmnt.set = true
  · have hread : readItem s.cmnt.item = some (cstr s.cmnt.item) := by
      unfold readItem
      rw [if_pos (hterm.2 hc)]
    simp only [hc, if_true, hread]
    exact ⟨_, rfl⟩
  · simp only [hc, Bool.false_eq_true, if_false]
    exact ⟨_, rfl⟩

/-! ## Claims on the payload -/

/-- C5, as amended: when every slot that is set holds a terminator, the members fit
the document pool of 192 bytes and the output buffer is longer than the text, the
payload is the JSON object whose members are `writeKey` with the write key, then for
each set slot i of 1..11 in increasing order the member named `ambient_keys[i-1]`
(d1..d8, lat, lng, created) with the slot's text, then `cmnt` with the comment text
if the comment is set; unset slots give no member. -/
theorem get_data_as_json_members (s : AmbientSecure) (output_size : Nat)
    (hlen : s.data.length = 11) (hterm : s.terminated)
    (hpool : poolSize (spec_members s) ≤ 192)
    (hbuf : (writeObject (spec_members s)).length < output_size) :
    s.jsonDocument =
      some { capacity := 192, usage := poolSize (spec_members s), members := spec_members s } ∧
    s.get_data_as_json output_size = some (writeObject (spec_members s)) := by
  have hdoc := jsonDocument_spec s hlen hterm hpool
  refine ⟨hdoc, ?_⟩
  unfold AmbientSecure.get_data_as_json
  rw [hdoc]
  simp only [serializeJson]
  rw [List.take_of_length_le (by omega)]

theorem get_data_as_json_members_witness :
    begun.get_data_as_json 512 = some "\x7b\"writeKey\":\"k\"\x7d".toList ∧
    fields_2_5.get_data_as_json 512 =
      some "\x7b\"writeKey\":\"k\",\"d2\":\"a\",\"d5\":\"b\"\x7d".toList ∧
    fields_1_2.get_data_as_json 512 =
      some "\x7b\"writeKey\":\"k\",\"d1\":\"23.5\",\"d2\":\"66\"\x7d".toList ∧
    (fields_1_to_8_and_comment.jsonDocument.map (fun doc => doc.members.map (fun m => m.1))) =
      some ["writeKey", "d1", "d2", "d3", "d4", "d5", "d6", "d7", "d8", "cmnt"] :=
  ⟨(get_data_as_json_members begun 512 (by decide) (by decide) (by decide) (by decide)).2.trans
      (by decide),
    (get_data_as_json_members fields_2_5 512 (by decide) (by decide) (by decide)
      (by decide)).2.trans (by decide),
    (get_data_as_json_members fields_1_2 512 (by decide) (by decide) (by decide)
      (by decide)).2.trans (by decide),
    (congrArg (Option.map (fun doc => doc.members.map (fun m => m.1)))
      (get_data_as_json_members fields_1_to_8_and_comment 512 (by decide) (by decide)
        (by decide) (by decide)).1).trans (by decide)⟩

/-- C5, as stated, fails on a record with slot 9 set: the payload has the member
`lat`, which is none of writeKey, d1..d8, cmnt. -/
theorem get_data_as_json_emits_lat :
    (begun.set 9 ['x']).ret = true ∧
    (begun.set 9 ['x']).self.jsonDocument.map (fun doc => doc.members) =
      some [("writeKey", .str ['k']), ("lat", .str ['x'])] ∧
    (begun.set 9 ['x']).self.get_data_as_json 512 =
      some "\x7b\"writeKey\":\"k\",\"lat\":\"x\"\x7d".toList := by
  decide

/-- In the document model a payload that needs more than the 192 bytes of the pool
loses members: here the last field is not emitted. -/
theorem jsonDocument_pool_overflow :
    poolSize (spec_members fields_1_to_8_long) = 209 ∧
    fields_1_to_8_long.jsonDocument.map (fun doc => doc.members.map (fun m => m.1)) =
      some ["writeKey", "d1", "d2", "d3", "d4", "d5", "d6", "d7"] := by
  decide

/-! ## Claims on the request status -/

theorem statusRule_of_self (s : AmbientSecure) (https : HTTPClient) (after : AmbientSecure)
    (failure : Prop)
    (hself : after = if https.begin then { s with status := https.sendRequest } else s)
    (hfail : https.begin = false ∨ https.sendRequest ≠ 200 → failure) :
    StatusRule s https after failure := by
  refine ⟨?_, ?_, hfail⟩
  · intro hb
    rw [hself, hb]
    rfl
  · intro hb
    rw [hself, hb]
    rfl

theorem https_send_request_fails (s : AmbientSecure) (https : HTTPClient) (url : List Char)
    (method : String) (json_payload : Option (List Char)) (json_payload_size : Nat)
    (stream : Option ArrayBufferStream) (tmout : Nat)
    (h : https.begin = false ∨ https.sendRequest ≠ 200) :
    (s.https_send_request https url method json_payload json_payload_size stream tmout).1 =
      false := by
  cases hr : (s.https_send_request https url method json_payload json_payload_size stream
    tmout).1
  · rfl
  · have := (https_send_request_ret s https url method json_payload json_payload_size stream
      tmout).mp hr
    rcases h with h | h
    · rw [this.1] at h
      exact absurd h (by simp)
    · exact absurd this.2.1 h

theorem https_send_request_string_fails (s : AmbientSecure) (https : HTTPClient)
    (url : List Char) (method : String) (tmout : Nat)
    (h : https.begin = false ∨ https.sendRequest ≠ 200) :
    (s.https_send_request_string https url method tmout).1 = [] := by
  rw [https_send_request_string_text]
  have : ¬ (https.begin = true ∧ https.sendRequest = 200) := by
    rintro ⟨hb, hc⟩
    rcases h with h | h
    · rw [hb] at h
      exact absurd h (by simp)
    · exact h hc
  rw [if_neg this]

/-- What `getchannel` returns when the request did not end with code 200. -/
theorem getchannel_fails (s : AmbientSecure) (https : HTTPClient)
    (deserializeJson : List Char → Option ChannelDoc) (userKey devKey : List Char)
    (channelId : Nat) (writeKey readKey : Option (List Char)) (tmout : Nat)
    (h : https.begin = false ∨ https.sendRequest ≠ 200) :
    s.getchannel https deserializeJson userKey devKey channelId writeKey readKey tmout =
      some { ret := false, channelId := channelId, writeKey := writeKey, readKey := readKey,
             self := if https.begin then { s with status := https.sendRequest } else s } := by
  unfold AmbientSecure.getchannel
  simp only
  rw [https_send_request_string_fails _ _ _ _ _ h, https_send_request_string_self]
  rfl

/-- The object `getchannel` leaves behind whenever it returns. -/
theorem getchannel_self (s : AmbientSecure) (https : HTTPClient)
    (deserializeJson : List Char → Option ChannelDoc) (userKey devKey : List Char)
    (channelId : Nat) (writeKey readKey : Option (List Char)) (tmout : Nat)
    (r : ChannelRet)
    (h : s.getchannel https deserializeJson userKey devKey channelId writeKey readKey tmout
      = some r) :
    r.self = if https.begin then { s with status := https.sendRequest } else s := by
  unfold AmbientSecure.getchannel at h
  simp only at h
  rw [https_send_request_string_self] at h
  split at h
  · simp only [Option.some.injEq] at h
    subst h
    rfl
  · split at h
    · simp only [Option.some.injEq] at h
      subst h
      rfl
    · split at h
      · exact absurd h (by simp)
      · split at h
        · exact absurd h (by simp)
        · split at h
          · exact absurd h (by simp)
          · simp only [Option.some.injEq] at h
            subst h
            rfl

/-- C8, as amended: for every object, every network operation that connects
overwrites `status` with the code its request returned, whatever the status was
before; when the connection cannot be made `status` keeps the value it had before
the call; and every outcome other than code 200, connection failure included, makes
the operation return its failure value (false, 0, or the empty text).  This holds
for `bulk_send`, both `read` variants and `delete_data` without condition, for
`send` and `getchannel` whenever they return; `send` returns for every record whose
set slots are terminated, and `getchannel` returns on every failing outcome. -/
theorem status_after_network_operation (s : AmbientSecure) (https : HTTPClient)
    (deserializeJson : List Char → Option ChannelDoc) (buf userKey devKey : List Char)
    (len n channelId tmout : Nat) (writeKey readKey : Option (List Char)) :
    (∀ r, s.send https tmout = some r → StatusRule s https r.2 (r.1 = false)) ∧
    (s.data.length = 11 → s.terminated → ∃ r, s.send https tmout = some r) ∧
    StatusRule s https (s.bulk_send https buf tmout).2 ((s.bulk_send https buf tmout).1 = 0) ∧
    StatusRule s https (s.read https len n tmout).2 ((s.read https len n tmout).1 = false) ∧
    StatusRule s https (s.read_string https n tmout).2 ((s.read_string https n tmout).1 = []) ∧
    StatusRule s https (s.delete_data https userKey tmout).2
      ((s.delete_data https userKey tmout).1 = false) ∧
    (∀ r, s.getchannel https deserializeJson userKey devKey channelId writeKey readKey tmout
        = some r → StatusRule s https r.self (r.ret = false)) ∧
    (https.begin = false ∨ https.sendRequest ≠ 200 →
      ∃ r, s.getchannel https deserializeJson userKey devKey channelId writeKey readKey tmout
        = some r) := by
  refine ⟨?_, ?_, ?_, ?_, ?_, ?_, ?_, ?_⟩
  · intro r hr
    unfold AmbientSecure.send at hr
    split at hr
    · simp only [Option.some.injEq] at hr
      subst hr
      exact statusRule_of_self _ _ _ _ (https_send_request_self _ _ _ _ _ _ _ _)
        (fun _ => https_send_request_null_stream _ _ _ _ _ _ _)
    · exact absurd hr (by simp)
  · intro hlen hterm
    obtain ⟨text, ht⟩ := get_data_as_json_returns s 512 hlen hterm
    exact ⟨_, by unfold AmbientSecure.send; rw [ht]⟩
  · refine statusRule_of_self _ _ _ _ ?_ (fun _ => bulk_send_returns_0 _ _ _ _)
    unfold AmbientSecure.bulk_send
    exact https_send_request_self _ _ _ _ _ _ _ _
  · unfold AmbientSecure.read
    exact statusRule_of_self _ _ _ _ (https_send_request_self _ _ _ _ _ _ _ _)
      (fun h => https_send_request_fails _ _ _ _ _ _ _ _ h)
  · unfold AmbientSecure.read_string
    exact statusRule_of_self _ _ _ _ (https_send_request_string_self _ _ _ _ _)
      (fun h => https_send_request_string_fails _ _ _ _ _ h)
  · unfold AmbientSecure.delete_data
    exact statusRule_of_self _ _ _ _ (https_send_request_self _ _ _ _ _ _ _ _)
      (fun _ => https_send_request_null_stream _ _ _ _ _ _ _)
  · intro r hr
    refine statusRule_of_self _ _ _ _ (getchannel_self _ _ _ _ _ _ _ _ _ _ hr) ?_
    intro h
    rw [getchannel_fails _ _ _ _ _ _ _ _ _ h] at hr
    simp only [Option.some.injEq] at hr
    subst hr
    rfl
  · intro h
    exact ⟨_, getchannel_fails _ _ _ _ _ _ _ _ _ h⟩

theorem status_after_network_operation_witness :
    after200.data.length = 11 ∧ after200.terminated ∧
    (after200.bulk_send answer403 ['[', ']'] 30000).2.status = 403 ∧
    (after200.bulk_send answer403 ['[', ']'] 30000).1 = 0 ∧
    (after200.read answer403 64 1 30000).2.status = 403 ∧
    (after200.read answer403 64 1 30000).1 = false ∧
    (after200.delete_data connectionFailure ['u'] 30000).2.status = 200 ∧
    (∃ r, after200.send answer403 30000 = some r ∧ r.2.status = 403 ∧ r.1 = false) ∧
    ¬ unterminated_field_1.terminated ∧
    (unterminated_field_1.bulk_send answer403 ['[', ']'] 30000).2.status = 403 ∧
    (unterminated_field_1.bulk_send answer403 ['[', ']'] 30000).1 = 0 :=
  have t := status_after_network_operation after200 answer403 channelParser ['[', ']'] ['u']
    ['d'] 64 1 0 30000 none none
  have t0 := status_after_network_operation after200 connectionFailure channelParser
    ['[', ']'] ['u'] ['d'] 64 1 0 30000 none none
  have tu := status_after_network_operation unterminated_field_1 answer403 channelParser
    ['[', ']'] ['u'] ['d'] 64 1 0 30000 none none
  ⟨by decide, by decide, t.2.2.1.1 rfl, t.2.2.1.2.2 (Or.inr (by decide)), t.2.2.2.1.1 rfl,
    t.2.2.2.1.2.2 (Or.inr (by decide)), t0.2.2.2.2.2.1.2.1 rfl,
    (t.2.1 (by decide) (by decide)).elim (fun r hr =>
      ⟨r, hr, (t.1 r hr).1 rfl, (t.1 r hr).2.2 (Or.inr (by decide))⟩),
    by decide, tu.2.2.1.1 rfl, tu.2.2.1.2.2 (Or.inr (by decide))⟩

/-- C8, as stated, fails when the connection cannot be made: after a previous 200
every operation leaves `status` at 200, and after a previous 403 at 403, so the
status after the call is the one before the call. -/
theorem connection_failure_keeps_status :
    (after200.send connectionFailure 30000).map (fun r => r.2.status) = some 200 ∧
    (after200.bulk_send connectionFailure ['[', ']'] 30000).2.status = 200 ∧
    (after200.read connectionFailure 64 1 30000).2.status = 200 ∧
    (after200.read_string connectionFailure 1 30000).2.status = 200 ∧
    (after200.delete_data connectionFailure ['u'] 30000).2.status = 200 ∧
    (after200.getchannel connectionFailure channelParser ['u'] ['d'] 0 none none 30000).map
      (fun r => r.self.status) = some 200 ∧
    (({ zeroed with status := 403 } : AmbientSecure).bulk_send connectionFailure ['[', ']']
      30000).2.status = 403 := by
  decide

end AmbientSecureESP32
